import Mathlib

/-!
# Verification of the chunked translation pipeline of `translatepro.py`

This file gives a shallow embedding of `translate_text_libre` (the core of
`src/translatepro.py`) and settles the specification claims about it.

Modelling conventions:
* Python strings are `List Char`; `text[i:i+1000]` windowing becomes
  `chunksOf1000` (lines 37-39 of the source).
* The network (`requests.post`, line 71-76, together with `response.json()`,
  line 79) is an oracle `Net` mapping (call sequence number, current instance
  index, request payload) to an `HttpResult`.  `HttpResult.response status tt?`
  is a served HTTP response whose JSON body carries `tt?` in the
  `translatedText` field (`none` when the field is absent); `HttpResult.exn`
  is any raised exception (transport failure, timeout, or malformed JSON on a
  200 response) — the source handles all of these in one `except` branch
  (lines 89-94).
* The Streamlit progress/status calls are pure UI and have no effect on the
  data flow; they are not modelled.
* `translate_text_libre` returns, besides the joined output string, two ghost
  observables needed by the claims: the final backend instance index
  (`instance_index`, lines 46, 84, 91) and the total number of network calls
  issued.
-/

namespace TranslatePro

/-- ASCII whitespace as removed by Python's `str.strip()` (the characters
relevant to `chunk.strip()` on line 53; the full Unicode whitespace set of
Python is not needed by any claim). -/
def pyIsSpace (c : Char) : Bool :=
  c = ' ' || c = '\t' || c = '\n' || c = '\r' || c = '\x0b' || c = '\x0c'

/-- Line 53, the test `not chunk.strip()`: the chunk is empty or whitespace-only. -/
def stripIsEmpty (l : List Char) : Bool := l.all pyIsSpace

/-- Lines 19-23: the ordered pool of LibreTranslate endpoints. -/
def LIBRE_TRANSLATE_INSTANCES : List String :=
  ["https://translate.argosopentech.com",
   "https://libretranslate.de",
   "https://translate.terraprint.co"]

/-- Lines 84 and 91: `instance_index = (instance_index + 1) % len(LIBRE_TRANSLATE_INSTANCES)`. -/
def rotate (idx : Nat) : Nat := (idx + 1) % LIBRE_TRANSLATE_INSTANCES.length

/-- Lines 29-32: the language-code dictionary. -/
def lang_map : List (String × String) :=
  [("Spanish", "es"), ("Chinese (Mandarin)", "zh")]

/-- Python `dict.get(k, dflt)` on an association list. -/
def dictGet (m : List (String × String)) (k dflt : String) : String :=
  match m.lookup k with
  | some v => v
  | none => dflt

/-- Line 34: `source = lang_map.get(source_lang, "auto")`. -/
def sourceFor (source_lang : String) : String := dictGet lang_map source_lang "auto"

/-- Lines 37-39: split the text into consecutive windows of 1000 characters
(`text[i:i+1000]` for `i in range(0, len(text), 1000)`). -/
def chunksOf1000 (l : List Char) : List (List Char) :=
  if h : l = [] then []
  else l.take 1000 :: chunksOf1000 (l.drop 1000)
termination_by l.length
decreasing_by
  simp only [List.length_drop]
  have : 0 < l.length := List.length_pos.mpr h
  omega

/-- One result of `requests.post` + `response.json()`:
`response status tt?` is a served response with HTTP status `status` and a
well-formed JSON body whose `translatedText` field is `tt?`; `exn` is any
exception (transport failure, timeout, malformed JSON). -/
inductive HttpResult where
  | response (status : Nat) (translatedText? : Option (List Char))
  | exn

/-- Lines 62-67: the JSON request body. -/
structure Payload where
  q : List Char
  source : String
  target : String
  format : String

/-- The network oracle: (call sequence number, current instance index,
payload) ↦ result of that attempt. -/
abbrev Net := Nat → Nat → Payload → HttpResult

/-- Line 59: `max_retries = 3`. -/
def max_retries : Nat := 3

/-- Lines 60-94: the retry loop `for retry in range(max_retries)` for one
chunk.  State threaded through: remaining iterations, current instance index,
network-call counter.  Returns `some t` on `break` with translated text `t`
(line 80-81), `none` when the loop ends with no success — the source then
simply falls through to the next chunk. -/
def retryLoop (net : Net) (pl : Payload) : Nat → Nat → Nat → Option (List Char) × Nat × Nat
  | 0, idx, calls => (none, idx, calls)
  | r + 1, idx, calls =>
    match net calls idx pl with
    | HttpResult.response status tt? =>
      if status = 200 then (some (tt?.getD []), idx, calls + 1)
      else retryLoop net pl r (rotate idx) (calls + 1)
    | HttpResult.exn => retryLoop net pl r (rotate idx) (calls + 1)

/-- Lines 52-94: handling of a single chunk — the whitespace guard
(lines 52-56, which appends `""` and issues no request) followed by the retry
loop with the payload of lines 62-67. -/
def translateChunk (net : Net) (source target : String) (c : List Char)
    (idx calls : Nat) : Option (List Char) × Nat × Nat :=
  if stripIsEmpty c then (some [], idx, calls)
  else retryLoop net ⟨c, source, target, "text"⟩ max_retries idx calls

/-- Lines 49-97: the chunk loop.  A chunk whose retry loop succeeded (or was
whitespace) appends exactly one entry to `translated_chunks`; a chunk whose
retry loop was exhausted appends nothing and the loop moves on. -/
def runChunks (net : Net) (source target : String) :
    List (List Char) → Nat → Nat → List (List Char) × Nat × Nat
  | [], idx, calls => ([], idx, calls)
  | c :: rest, idx, calls =>
    match translateChunk net source target c idx calls with
    | (some t, idx1, calls1) =>
      match runChunks net source target rest idx1 calls1 with
      | (tl, idx2, calls2) => (t :: tl, idx2, calls2)
    | (none, idx1, calls1) => runChunks net source target rest idx1 calls1

/-- Lines 25-100: `translate_text_libre`.  Output: the `'\n'.join` of the
collected chunk translations (line 100), plus the ghost observables (final
instance index, total network calls). -/
def translate_text_libre (net : Net) (source_lang target_lang : String)
    (text : List Char) : List Char × Nat × Nat :=
  match runChunks net (sourceFor source_lang) target_lang (chunksOf1000 text) 0 0 with
  | (tcs, idx, calls) => (List.intercalate ['\n'] tcs, idx, calls)

/-- An attempt outcome that the retry loop treats as a failure: a non-200
status (line 82) or an exception (line 89). -/
def isFailure : HttpResult → Bool
  | HttpResult.response s _ => !(s == 200)
  | HttpResult.exn => true

/-- A backend that raises on every attempt. -/
def alwaysExn : Net := fun _ _ _ => HttpResult.exn

/-- A backend that answers every attempt with HTTP 200 and `translatedText = "X"`. -/
def okX : Net := fun _ _ _ => HttpResult.response 200 (some ['X'])

/-- A backend whose first three calls raise and which then answers 200 with
`translatedText = "X"`. -/
def failsThenOk : Net := fun k _ _ =>
  if k < 3 then HttpResult.exn else HttpResult.response 200 (some ['X'])

/-- A backend that answers 200 with a well-formed JSON body that lacks the
`translatedText` field. -/
def ok200NoField : Net := fun _ _ _ => HttpResult.response 200 none

/-! ## Helper lemmas -/

/-- Chunking the empty text yields no chunks. -/
theorem chunksOf1000_nil : chunksOf1000 [] = [] := by
  rw [chunksOf1000]
  simp

/-- Concatenating the chunks (in index order, no separator) reproduces the
input text: the windows `text[i:i+1000]` partition the text. -/
theorem chunksOf1000_flatten (l : List Char) : (chunksOf1000 l).flatten = l := by
  induction l using chunksOf1000.induct with
  | case1 => simp [chunksOf1000_nil]
  | case2 l h ih =>
    rw [chunksOf1000]
    simp only [h, dite_false]
    simp [ih]

/-- A text of 1001 copies of `a` splits into a full window and a leftover. -/
theorem chunksOf1000_replicate_1001 :
    chunksOf1000 (List.replicate 1001 'a') = [List.replicate 1000 'a', ['a']] := by
  have hsub : (1001 - 1000 : Nat) = 1 := by omega
  have hmin : (1000 : Nat) ⊓ 1001 = 1000 := by omega
  have h1 : List.drop 1000 (List.replicate 1001 'a') = ['a'] := by
    rw [List.drop_replicate, hsub, List.replicate_one]
  have h2 : List.take 1000 (List.replicate 1001 'a') = List.replicate 1000 'a' := by
    rw [List.take_replicate, hmin]
  have ht : List.take 1000 ['a'] = ['a'] := List.take_of_length_le (by decide)
  have hd : List.drop 1000 ['a'] = [] := List.drop_eq_nil_iff.mpr (by decide)
  have h3 : chunksOf1000 ['a'] = [['a']] := by
    rw [chunksOf1000]
    rw [dif_neg (by decide : ¬ (['a'] : List Char) = [])]
    rw [ht, hd, chunksOf1000_nil]
  have hne : ¬ List.replicate 1001 'a' = [] := by decide
  rw [chunksOf1000]
  rw [dif_neg hne]
  rw [h1, h2, h3]

/-- A window full of `a` is not whitespace-only. -/
theorem stripIsEmpty_replicate_a : stripIsEmpty (List.replicate 1000 'a') = false := by
  rw [stripIsEmpty, show (1000 : Nat) = 999 + 1 from rfl, List.replicate_succ, List.all_cons]
  rw [show pyIsSpace 'a' = false from rfl, Bool.false_and]

/-- The retry loop only ever increases the network-call counter. -/
theorem retryLoop_calls_le (net : Net) (pl : Payload) :
    ∀ (r idx calls : Nat), calls ≤ (retryLoop net pl r idx calls).2.2 := by
  intro r
  induction r with
  | zero => intro idx calls; simp [retryLoop]
  | succ r ih =>
    intro idx calls
    rw [retryLoop]
    cases net calls idx pl with
    | response status tt? =>
      by_cases hs : status = 200
      · simp [hs]
      · simp only [hs, if_false]
        exact le_trans (Nat.le_succ calls) (ih (rotate idx) (calls + 1))
    | exn => exact le_trans (Nat.le_succ calls) (ih (rotate idx) (calls + 1))

/-- A failed attempt (non-200 status or exception) rotates the pool, counts
one network call, and hands over to the next retry iteration. -/
theorem retryLoop_step_fail (net : Net) (pl : Payload) (r idx calls : Nat)
    (h : isFailure (net calls idx pl) = true) :
    retryLoop net pl (r + 1) idx calls = retryLoop net pl r (rotate idx) (calls + 1) := by
  rw [retryLoop]
  cases hn : net calls idx pl with
  | response status tt? =>
    have hs : ¬ status = 200 := by
      rw [hn] at h
      simpa [isFailure] using h
    simp [hs]
  | exn => rfl

/-- If every attempt on the chunk fails, the per-chunk handler makes exactly
`max_retries` (three) attempts, rotates exactly three times, and yields no
result (so the chunk is silently dropped by the chunk loop). -/
theorem translateChunk_fail3 (net : Net) (s t : String) (c : List Char) (idx calls : Nat)
    (hws : stripIsEmpty c = false)
    (hfail : ∀ k i, isFailure (net k i ⟨c, s, t, "text"⟩) = true) :
    translateChunk net s t c idx calls = (none, rotate (rotate (rotate idx)), calls + 3) := by
  rw [translateChunk]
  simp only [hws, Bool.false_eq_true, if_false]
  rw [show max_retries = 2 + 1 from rfl]
  rw [retryLoop_step_fail net _ 2 idx calls (hfail calls idx)]
  rw [show (2 : Nat) = 1 + 1 from rfl]
  rw [retryLoop_step_fail net _ 1 (rotate idx) (calls + 1) (hfail (calls + 1) (rotate idx))]
  rw [show (1 : Nat) = 0 + 1 from rfl]
  rw [retryLoop_step_fail net _ 0 (rotate (rotate idx)) (calls + 2) (hfail (calls + 2) (rotate (rotate idx)))]
  rw [retryLoop]

/-- If the backend never fails, the per-chunk handler resolves the chunk with
a result, leaving the pool where it was. -/
theorem translateChunk_ok (net : Net) (s t : String) (c : List Char) (idx calls : Nat)
    (h : ∀ k i pl, isFailure (net k i pl) = false) :
    ∃ v calls1, translateChunk net s t c idx calls = (some v, idx, calls1) := by
  by_cases hws : stripIsEmpty c
  · exact ⟨[], calls, by simp [translateChunk, hws]⟩
  · have hf := h calls idx ⟨c, s, t, "text"⟩
    rw [translateChunk]
    simp only [hws, if_false]
    rw [show max_retries = 2 + 1 from rfl, retryLoop]
    cases hn : net calls idx ⟨c, s, t, "text"⟩ with
    | response status tt? =>
      have hs : status = 200 := by
        rw [hn] at hf
        simpa [isFailure] using hf
      exact ⟨tt?.getD [], calls + 1, by simp [hs]⟩
    | exn => rw [hn] at hf; simp [isFailure] at hf

/-- The chunk loop records at most one result per chunk. -/
theorem runChunks_length_le (net : Net) (s t : String) :
    ∀ (cs : List (List Char)) (idx calls : Nat),
      (runChunks net s t cs idx calls).1.length ≤ cs.length := by
  intro cs
  induction cs with
  | nil => intro idx calls; simp [runChunks]
  | cons c rest ih =>
    intro idx calls
    rcases h : translateChunk net s t c idx calls with ⟨r, idx1, calls1⟩
    cases r with
    | none =>
      simp only [runChunks, h]
      exact Nat.le_succ_of_le (ih idx1 calls1)
    | some v =>
      rcases hr : runChunks net s t rest idx1 calls1 with ⟨tl, idx2, calls2⟩
      have hlen := ih idx1 calls1
      rw [hr] at hlen
      simp only [runChunks, h, hr, List.length_cons]
      simpa using hlen

/-- When no attempt ever fails, the chunk loop records exactly one result per
chunk. -/
theorem runChunks_length_eq (net : Net) (hok : ∀ k i pl, isFailure (net k i pl) = false)
    (s t : String) :
    ∀ (cs : List (List Char)) (idx calls : Nat),
      (runChunks net s t cs idx calls).1.length = cs.length := by
  intro cs
  induction cs with
  | nil => intro idx calls; simp [runChunks]
  | cons c rest ih =>
    intro idx calls
    obtain ⟨v, calls1, hv⟩ := translateChunk_ok net s t c idx calls hok
    rcases hr : runChunks net s t rest idx calls1 with ⟨tl, idx2, calls2⟩
    have hlen := ih idx calls1
    rw [hr] at hlen
    simp only [runChunks, hv, hr, List.length_cons]
    simpa using hlen

/-- A retry loop that has at least one iteration left makes at least one
network call. -/
theorem retryLoop_calls_succ (net : Net) (pl : Payload) (r idx calls : Nat) :
    calls + 1 ≤ (retryLoop net pl (r + 1) idx calls).2.2 := by
  rw [retryLoop]
  cases net calls idx pl with
  | response status tt? =>
    by_cases hs : status = 200
    · simp [hs]
    · simp only [hs, if_false]
      exact retryLoop_calls_le net pl r (rotate idx) (calls + 1)
  | exn => exact retryLoop_calls_le net pl r (rotate idx) (calls + 1)

/-- A non-whitespace chunk costs at least one network call; a whitespace
chunk costs none. -/
theorem translateChunk_calls_ge (net : Net) (s t : String) (c : List Char) (idx calls : Nat) :
    calls + (if stripIsEmpty c = true then 0 else 1) ≤ (translateChunk net s t c idx calls).2.2 := by
  cases hws : stripIsEmpty c with
  | true => simp [translateChunk, hws]
  | false =>
    rw [translateChunk]
    simp only [hws, Bool.false_eq_true, if_false]
    rw [show max_retries = 2 + 1 from rfl]
    exact retryLoop_calls_succ net ⟨c, s, t, "text"⟩ 2 idx calls

/-- Line 34 on the concrete argument used by the UI (line 157). -/
theorem sourceFor_Spanish : sourceFor "Spanish" = "es" := by decide

/-- Evaluation of the chunk loop on the two chunks of the 1001-character
text against `failsThenOk`: the first chunk exhausts its three attempts
(calls 0, 1, 2) and is dropped; the second chunk succeeds on call 3. -/
theorem runChunks_ffo :
    runChunks failsThenOk "es" "en" [List.replicate 1000 'a', ['a']] 0 0 = ([['X']], 0, 4) := by
  decide

/-- Evaluation of the chunk loop on the two chunks of the 1001-character
text against `alwaysExn`: both chunks exhaust their three attempts and are
dropped, for six network calls in total. -/
theorem runChunks_exn2 :
    runChunks alwaysExn "es" "en" [List.replicate 1000 'a', ['a']] 0 0 = ([], 0, 6) := by
  decide

/-! ## Claims -/

/-- C1, counterexample: with the 1001-character input (two chunks) and a
backend that fails every attempt on the first chunk and then succeeds, the
whole-document translation does NOT abort: it completes normally, skips the
failed first chunk, dispatches the second chunk anyway (4 network calls in
total), and returns the partial output `"X"`. -/
theorem c1_cex :
    translate_text_libre failsThenOk "Spanish" "en" (List.replicate 1001 'a') = (['X'], 0, 4) := by
  simp only [translate_text_libre]
  rw [chunksOf1000_replicate_1001, sourceFor_Spanish, runChunks_ffo]
  rfl

/-- C1 (amended): when a chunk's translation exhausts all attempts, the
chunk loop appends nothing for that chunk and simply continues with the
remaining chunks (carrying the rotated pool index and call count forward),
producing partial output; no error is raised and nothing halts. -/
theorem c1_skip_continue :
    ∀ (net : Net) (s t : String) (c : List Char) (rest : List (List Char)) (idx calls : Nat),
      (translateChunk net s t c idx calls).1 = none →
      runChunks net s t (c :: rest) idx calls =
        runChunks net s t rest (translateChunk net s t c idx calls).2.1
          (translateChunk net s t c idx calls).2.2 := by
  intro net s t c rest idx calls h
  rcases hh : translateChunk net s t c idx calls with ⟨r, idx1, calls1⟩
  rw [hh] at h
  cases r with
  | none => simp only [runChunks, hh]
  | some v => simp at h

/-- C1, witness for the amended claim at a concrete failing chunk. -/
theorem c1_skip_continue_w :
    runChunks alwaysExn "es" "en" [['a']] 0 0 =
      runChunks alwaysExn "es" "en" [] (translateChunk alwaysExn "es" "en" ['a'] 0 0).2.1
        (translateChunk alwaysExn "es" "en" ['a'] 0 0).2.2 :=
  c1_skip_continue alwaysExn "es" "en" ['a'] [] 0 0 (by decide)

/-- C2, counterexample: after the run on the two-chunk 1001-character input
in which the first chunk exhausts its retries, only one translated segment
is recorded for two chunks — the completed run does not have one result per
chunk index. -/
theorem c2_cex :
    (runChunks failsThenOk "es" "en" (chunksOf1000 (List.replicate 1001 'a')) 0 0).1.length ≠
      (chunksOf1000 (List.replicate 1001 'a')).length := by
  rw [chunksOf1000_replicate_1001, runChunks_ffo]
  decide

/-- C2 (amended): each chunk contributes at most one translated segment, in
index order (so segments ≤ chunks), and the counts are equal whenever no
chunk exhausts its retries — for instance whenever every request succeeds.
A chunk that exhausts its retries contributes no segment at all. -/
theorem c2_results :
    (∀ (net : Net) (s t : String) (cs : List (List Char)) (idx calls : Nat),
        (runChunks net s t cs idx calls).1.length ≤ cs.length) ∧
      (∀ net : Net, (∀ k i pl, isFailure (net k i pl) = false) →
        ∀ (s t : String) (cs : List (List Char)) (idx calls : Nat),
          (runChunks net s t cs idx calls).1.length = cs.length) :=
  ⟨runChunks_length_le, fun net hok => runChunks_length_eq net hok⟩

/-- C2, witness for the amended claim at a concrete all-success run. -/
theorem c2_results_w :
    (runChunks okX "es" "en" [['a'], ['b']] 0 0).1.length = ([['a'], ['b']] : List (List Char)).length :=
  c2_results.2 okX (fun _ _ _ => rfl) "es" "en" [['a'], ['b']] 0 0

/-- C3, counterexample: against a backend that fails every attempt, the
per-chunk translation makes exactly `max_retries` = 3 network attempts — not
`max_retries + 1` — and then yields no result at all (`none`): no
`TranslationError` or any other error is produced, the chunk is silently
dropped. -/
theorem c3_cex :
    translateChunk alwaysExn "es" "en" ['a'] 0 0 = (none, 0, max_retries) ∧
      (translateChunk alwaysExn "es" "en" ['a'] 0 0).2.2 ≠ max_retries + 1 := by
  decide

/-- C3 (amended): for a non-whitespace chunk and a backend failing on every
attempt, the retry loop attempts the request exactly `max_retries` (= 3)
times, rotates the backend pool exactly 3 times, and then gives up silently:
it returns no result (the orchestrator then drops the chunk), raising no
error. -/
theorem c3_exhaustion :
    ∀ (net : Net) (s t : String) (c : List Char) (idx calls : Nat),
      stripIsEmpty c = false →
      (∀ k i, isFailure (net k i ⟨c, s, t, "text"⟩) = true) →
      translateChunk net s t c idx calls = (none, rotate (rotate (rotate idx)), calls + 3) :=
  fun net s t c idx calls hws hf => translateChunk_fail3 net s t c idx calls hws hf

/-- C3, witness for the amended claim at a concrete chunk and pool state. -/
theorem c3_exhaustion_w :
    translateChunk alwaysExn "es" "en" ['b'] 1 5 = (none, rotate (rotate (rotate 1)), 5 + 3) :=
  c3_exhaustion alwaysExn "es" "en" ['b'] 1 5 (by decide) (fun _ _ => rfl)

/-- C4, counterexample: on a 1001-character input the chunker produces two
windows, and rejoining them with `'\n'` (the join used on line 100) does not
reproduce the input — it inserts an extra newline between the windows. -/
theorem c4_cex :
    List.intercalate ['\n'] (chunksOf1000 (List.replicate 1001 'a')) ≠ List.replicate 1001 'a' := by
  rw [chunksOf1000_replicate_1001]
  have hform : List.intercalate ['\n'] [List.replicate 1000 'a', ['a']] =
      List.replicate 1000 'a' ++ '\n' :: 'a' :: [] := rfl
  rw [hform]
  intro hc
  have hlen := congrArg List.length hc
  simp only [List.length_append, List.length_replicate, List.length_cons,
    List.length_nil] at hlen
  omega

/-- C4 (amended): concatenating the chunks with no separator reproduces the
input exactly, for every input; rejoining with `'\n'` reproduces the input
only when it fits in a single 1000-character window. -/
theorem c4_roundtrip :
    (∀ l : List Char, (chunksOf1000 l).flatten = l) ∧
      (∀ l : List Char, l.length ≤ 1000 → List.intercalate ['\n'] (chunksOf1000 l) = l) := by
  refine ⟨chunksOf1000_flatten, ?_⟩
  intro l hl
  by_cases h : l = []
  · subst h
    rw [chunksOf1000_nil]
    rfl
  · rw [chunksOf1000, dif_neg h, List.take_of_length_le hl, List.drop_eq_nil_iff.mpr hl,
      chunksOf1000_nil]
    simp [List.intercalate]

/-- C4, witness for the amended claim at a concrete short input. -/
theorem c4_roundtrip_w : List.intercalate ['\n'] (chunksOf1000 ['h', 'i']) = ['h', 'i'] :=
  c4_roundtrip.2 ['h', 'i'] (by decide)

/-- C5, counterexample: the pool has N = 3 endpoints, and N + 1 = 4
consecutive rotations starting from the first endpoint do NOT return to the
first endpoint (they land on the second). -/
theorem c5_cex : rotate (rotate (rotate (rotate 0))) ≠ 0 := by decide

/-- C5 (amended): rotation advances to the next endpoint and wraps to the
first after the last (a cyclic ring), and N = 3 consecutive rotations — not
N + 1 — return to the first endpoint. -/
theorem c5_rotation :
    rotate 0 = 1 ∧ rotate 1 = 2 ∧ rotate 2 = 0 ∧ rotate (rotate (rotate 0)) = 0 := by
  decide

/-- C6: the empty input yields an empty chunk sequence, and the
whole-document translation returns the empty string with zero network calls
(final call counter 0) and no error. -/
theorem c6_empty :
    chunksOf1000 [] = [] ∧
      ∀ (net : Net) (sl tg : String), translate_text_libre net sl tg [] = ([], 0, 0) := by
  refine ⟨chunksOf1000_nil, ?_⟩
  intro net sl tg
  simp only [translate_text_libre, chunksOf1000_nil]
  rfl

/-- C7: an empty or whitespace-only chunk immediately yields the empty
string, with the pool index untouched (no rotation) and the call counter
untouched (zero network calls). -/
theorem c7_whitespace :
    ∀ (net : Net) (s t : String) (c : List Char) (idx calls : Nat),
      stripIsEmpty c = true → translateChunk net s t c idx calls = (some [], idx, calls) := by
  intro net s t c idx calls h
  simp [translateChunk, h]

/-- C7, witness at a concrete whitespace-only chunk. -/
theorem c7_whitespace_w : translateChunk alwaysExn "es" "en" [' ', '\n'] 4 9 = (some [], 4, 9) :=
  c7_whitespace alwaysExn "es" "en" [' ', '\n'] 4 9 (by decide)

/-- C8: a 200 response with a well-formed JSON body lacking the
`translatedText` field makes the chunk resolve to the empty string on that
very attempt — one network call, no retry, no rotation, no failure. -/
theorem c8_missing_field :
    ∀ (net : Net) (s t : String) (c : List Char) (idx calls : Nat),
      stripIsEmpty c = false →
      net calls idx ⟨c, s, t, "text"⟩ = HttpResult.response 200 none →
      translateChunk net s t c idx calls = (some [], idx, calls + 1) := by
  intro net s t c idx calls hws hn
  rw [translateChunk]
  simp only [hws, Bool.false_eq_true, if_false]
  rw [show max_retries = 2 + 1 from rfl, retryLoop, hn]
  rfl

/-- C8, witness at a concrete chunk and backend. -/
theorem c8_missing_field_w : translateChunk ok200NoField "es" "en" ['a'] 0 0 = (some [], 0, 1) :=
  c8_missing_field ok200NoField "es" "en" ['a'] 0 0 (by decide) rfl

/-- C9, counterexample: even when every single attempt fails — the situation
in which a cancellation check would stop the run — the chunk loop
unconditionally dispatches every chunk: on the two-chunk 1001-character
input it makes all 3 + 3 = 6 network calls and completes.  There is no
cancellation flag anywhere in the pipeline. -/
theorem c9_cex :
    translate_text_libre alwaysExn "Spanish" "en" (List.replicate 1001 'a') = ([], 0, 6) := by
  simp only [translate_text_libre]
  rw [chunksOf1000_replicate_1001, sourceFor_Spanish, runChunks_exn2]
  rfl

/-- C9 (amended): the pipeline has no cancellation mechanism: the chunk loop
is unconditional, and every non-whitespace chunk always triggers at least
one network call — the final call counter is at least the starting counter
plus the number of non-whitespace chunks, whatever the backend does. -/
theorem c9_no_cancellation :
    ∀ (net : Net) (s t : String) (cs : List (List Char)) (idx calls : Nat),
      calls + cs.countP (fun c => !stripIsEmpty c) ≤ (runChunks net s t cs idx calls).2.2 := by
  intro net s t cs
  induction cs with
  | nil => intro idx calls; simp [runChunks]
  | cons c rest ih =>
    intro idx calls
    rcases h : translateChunk net s t c idx calls with ⟨r, idx1, calls1⟩
    have h1 : calls + (if stripIsEmpty c = true then 0 else 1) ≤ calls1 := by
      have hg := translateChunk_calls_ge net s t c idx calls
      rw [h] at hg
      exact hg
    have hcount : (c :: rest).countP (fun x => !stripIsEmpty x) =
        rest.countP (fun x => !stripIsEmpty x) + (if stripIsEmpty c = true then 0 else 1) := by
      rw [List.countP_cons]
      by_cases hws : stripIsEmpty c = true <;> simp [hws]
    cases r with
    | none =>
      have h2 := ih idx1 calls1
      have hgoal : runChunks net s t (c :: rest) idx calls = runChunks net s t rest idx1 calls1 := by
        simp only [runChunks, h]
      rw [hgoal, hcount]
      omega
    | some v =>
      rcases hr : runChunks net s t rest idx1 calls1 with ⟨tl, idx2, calls2⟩
      have h2 : calls1 + rest.countP (fun x => !stripIsEmpty x) ≤ calls2 := by
        have hg := ih idx1 calls1
        rw [hr] at hg
        exact hg
      have hgoal : (runChunks net s t (c :: rest) idx calls).2.2 = calls2 := by
        simp [runChunks, h, hr]
      rw [hgoal, hcount]
      omega

/-- C10: the request's source-language code is `"es"` for `"Spanish"`,
`"zh"` for `"Chinese (Mandarin)"`, and `"auto"` for every other value — an
unrecognized source language never errors, it falls back to automatic
detection. -/
theorem c10_source_mapping :
    sourceFor "Spanish" = "es" ∧ sourceFor "Chinese (Mandarin)" = "zh" ∧
      ∀ s : String, s ≠ "Spanish" → s ≠ "Chinese (Mandarin)" → sourceFor s = "auto" := by
  refine ⟨by decide, by decide, ?_⟩
  intro s h1 h2
  have e1 : (s == "Spanish") = false := beq_eq_false_iff_ne.mpr h1
  have e2 : (s == "Chinese (Mandarin)") = false := beq_eq_false_iff_ne.mpr h2
  rw [sourceFor, dictGet, lang_map]
  simp [List.lookup, e1, e2]

/-- C10, witness at a concrete unrecognized language. -/
theorem c10_source_mapping_w : sourceFor "French" = "auto" :=
  c10_source_mapping.2.2 "French" (by decide) (by decide)

end TranslatePro
